import Mathlib

/-!
Verification of the DocumentTools toolbar component
(packages/edit-site/src/components/header-edit-mode/document-tools/index.js).

The component is embedded shallowly:
* the store snapshot, the component props and the external collaborator
  answers form `DocumentToolsInput`;
* the JSX return value becomes the pure function `DocumentTools`, which maps
  an input to a `RenderDecision` record (one optional sub-record per toolbar
  control, holding the props the source passes to that control);
* the event handlers (`toggleInserter`, `toggleListView`, the zoom-out
  onClick) become functions returning the list of dispatched effects, in
  dispatch order; `applyEffects` folds those effects over an explicit
  `StoreState` to obtain the post-dispatch store.
-/

/-- The optional browser global. Only the one experiment property read by the
component is modelled; `none` models the property being undefined. -/
structure WindowGlobal where
  __experimentalEnableZoomedOutView : Option Bool
deriving DecidableEq

/-- Everything `DocumentTools` reads at render time: the component props
(`blockEditorMode`, `isDistractionFree`, `showIconLabels`), the store
selectors destructured from `useSelect` (plus `deviceType`, which the
selector body returns but the component never destructures), the preference
and viewport signals, the optional browser global, and the three booleans
from `useShouldContextualToolbarShow`. -/
structure DocumentToolsInput where
  blockEditorMode : String
  isDistractionFree : Bool
  showIconLabels : Bool
  deviceType : String
  isInserterOpen : Bool
  isListViewOpen : Bool
  listViewShortcut : Option String
  editorMode : String
  hasFixedToolbar : Bool
  isLargeViewport : Bool
  window : Option WindowGlobal
  shouldShowContextualToolbar : Bool
  canFocusHiddenToolbar : Bool
  fixedToolbarCanBeFocused : Bool
deriving DecidableEq

/-- `getEditorMode() === 'visual'` from the selector body. -/
def isVisualMode (i : DocumentToolsInput) : Bool :=
  i.editorMode == "visual"

/-- `blockEditorMode === 'zoom-out'`. -/
def isZoomedOutView (i : DocumentToolsInput) : Bool :=
  i.blockEditorMode == "zoom-out"

/-- The value of `window?.__experimentalEnableZoomedOutView`: `none` when the
global object is absent or the property is undefined. -/
def windowZoomOutFlag (i : DocumentToolsInput) : Option Bool :=
  i.window.bind fun w => w.__experimentalEnableZoomedOutView

/-- `window?.__experimentalEnableZoomedOutView && isVisualMode`, collapsed to
its truthiness: an absent global or property is falsy. -/
def isZoomedOutViewExperimentEnabled (i : DocumentToolsInput) : Bool :=
  (windowZoomOutFlag i).getD false && isVisualMode i

/-- `shouldShowContextualToolbar || canFocusHiddenToolbar || fixedToolbarCanBeFocused`. -/
def blockToolbarCanBeFocused (i : DocumentToolsInput) : Bool :=
  i.shouldShowContextualToolbar || i.canFocusHiddenToolbar ||
    i.fixedToolbarCanBeFocused

/-- The long inserter label string. -/
def longLabel : String := "Toggle block inserter"

/-- The short inserter label, switching on `isInserterOpen`. -/
def shortLabel (i : DocumentToolsInput) : String :=
  if !i.isInserterOpen then "Add" else "Close"

/-- The effects the component can dispatch, plus the imperative focus move on
the inserter button reference. -/
inductive Effect where
  | focusInserterButton : Effect
  | setIsInserterOpened : Bool → Effect
  | setIsListViewOpened : Bool → Effect
  | setPreviewDeviceType : String → Effect
  | setEditorMode : String → Effect
deriving DecidableEq

/-- The store fields the dispatched actions can write. -/
structure StoreState where
  isInserterOpen : Bool
  isListViewOpen : Bool
  deviceType : String
  blockEditorMode : String
deriving DecidableEq

/-- How each dispatched effect updates the store; the focus move touches no
store field. -/
def applyEffect (s : StoreState) : Effect → StoreState
  | Effect.focusInserterButton => s
  | Effect.setIsInserterOpened b => { s with isInserterOpen := b }
  | Effect.setIsListViewOpened b => { s with isListViewOpen := b }
  | Effect.setPreviewDeviceType d => { s with deviceType := d }
  | Effect.setEditorMode m => { s with blockEditorMode := m }

/-- Fold a dispatch trace over the store, first effect first. -/
def applyEffects (s : StoreState) (es : List Effect) : StoreState :=
  es.foldl applyEffect s

/-- The `toggleInserter` callback: when open, focus the inserter button and
then close; when closed, open. The list is the effect trace in order. -/
def toggleInserter (isInserterOpen : Bool) : List Effect :=
  if isInserterOpen then
    [Effect.focusInserterButton, Effect.setIsInserterOpened false]
  else
    [Effect.setIsInserterOpened true]

/-- The `toggleListView` callback: `setIsListViewOpened( ! isListViewOpen )`. -/
def toggleListView (isListViewOpen : Bool) : List Effect :=
  [Effect.setIsListViewOpened (!isListViewOpen)]

/-- The zoom-out toggle onClick: `setPreviewDeviceType( 'Desktop' )`, then
`__unstableSetEditorMode( isZoomedOutView ? 'edit' : 'zoom-out' )`. -/
def zoomOutToggleOnClick (blockEditorMode : String) : List Effect :=
  [Effect.setPreviewDeviceType "Desktop",
   Effect.setEditorMode (if blockEditorMode == "zoom-out" then "edit"
                         else "zoom-out")]

/-- One invocation of `toggleInserter` against a store: post store and trace. -/
def toggleInserterStep (s : StoreState) : StoreState × List Effect :=
  (applyEffects s (toggleInserter s.isInserterOpen),
   toggleInserter s.isInserterOpen)

/-- One invocation of `toggleListView` against a store: post store and trace. -/
def toggleListViewStep (s : StoreState) : StoreState × List Effect :=
  (applyEffects s (toggleListView s.isListViewOpen),
   toggleListView s.isListViewOpen)

/-- Props the source passes to the inserter toggle button. -/
structure InserterControl where
  isPressed : Bool
  disabled : Bool
  label : String
  showTooltip : Bool
  ariaExpanded : Bool
deriving DecidableEq

/-- Props the source passes to the tool selector item. -/
structure ToolSelectorControl where
  showTooltip : Bool
  variant : Option String
  disabled : Bool
deriving DecidableEq

/-- Props the source passes to the undo and redo items. -/
structure UndoRedoControl where
  showTooltip : Bool
  variant : Option String
deriving DecidableEq

/-- Props the source passes to the list-view toggle button. -/
structure ListViewControl where
  disabled : Bool
  isPressed : Bool
  label : String
  shortcut : Option String
  showTooltip : Bool
  variant : Option String
  ariaExpanded : Bool
deriving DecidableEq

/-- Props the source passes to the zoom-out toggle button. -/
structure ZoomOutControl where
  isPressed : Bool
  label : String
deriving DecidableEq

/-- The render decision: the toolbar shortcut flag and, per control, `some`
of its props when the control is rendered and `none` when it is not. -/
structure RenderDecision where
  shouldUseKeyboardFocusShortcut : Bool
  inserter : Option InserterControl
  toolSelector : Option ToolSelectorControl
  undo : Option UndoRedoControl
  redo : Option UndoRedoControl
  listView : Option ListViewControl
  zoomOut : Option ZoomOutControl
deriving DecidableEq

/-- The JSX returned by `DocumentTools`, transcribed condition by condition:
the inserter renders unless distraction-free; the large-viewport fragment
holds the tool selector (unless fixed toolbar), undo, redo, the list-view
toggle (unless distraction-free) and the zoom-out toggle (when the derived
experiment flag holds, not distraction-free, no fixed toolbar). -/
def DocumentTools (i : DocumentToolsInput) : RenderDecision where
  shouldUseKeyboardFocusShortcut := !blockToolbarCanBeFocused i
  inserter :=
    if !i.isDistractionFree then
      some { isPressed := i.isInserterOpen
             disabled := !isVisualMode i
             label := if i.showIconLabels then shortLabel i else longLabel
             showTooltip := !i.showIconLabels
             ariaExpanded := i.isInserterOpen }
    else none
  toolSelector :=
    if i.isLargeViewport && !i.hasFixedToolbar then
      some { showTooltip := !i.showIconLabels
             variant := if i.showIconLabels then some "tertiary" else none
             disabled := !isVisualMode i }
    else none
  undo :=
    if i.isLargeViewport then
      some { showTooltip := !i.showIconLabels
             variant := if i.showIconLabels then some "tertiary" else none }
    else none
  redo :=
    if i.isLargeViewport then
      some { showTooltip := !i.showIconLabels
             variant := if i.showIconLabels then some "tertiary" else none }
    else none
  listView :=
    if i.isLargeViewport && !i.isDistractionFree then
      some { disabled := !isVisualMode i || isZoomedOutView i
             isPressed := i.isListViewOpen
             label := "List View"
             shortcut := i.listViewShortcut
             showTooltip := !i.showIconLabels
             variant := if i.showIconLabels then some "tertiary" else none
             ariaExpanded := i.isListViewOpen }
    else none
  zoomOut :=
    if i.isLargeViewport &&
        (isZoomedOutViewExperimentEnabled i && !i.isDistractionFree &&
          !i.hasFixedToolbar) then
      some { isPressed := isZoomedOutView i
             label := "Zoom-out View" }
    else none

/-- A concrete input: large viewport, global experiment flag set to `true`,
not distraction-free, no fixed toolbar, but editor mode `text` (not visual). -/
def c1Input : DocumentToolsInput where
  blockEditorMode := "edit"
  isDistractionFree := false
  showIconLabels := false
  deviceType := "Desktop"
  isInserterOpen := false
  isListViewOpen := false
  listViewShortcut := none
  editorMode := "text"
  hasFixedToolbar := false
  isLargeViewport := true
  window := some { __experimentalEnableZoomedOutView := some true }
  shouldShowContextualToolbar := false
  canFocusHiddenToolbar := false
  fixedToolbarCanBeFocused := false

/-- Claim C1 as stated is false: at `c1Input` the viewport is large, the
zoom-out experiment flag is enabled, distraction-free mode is off and
`hasFixedToolbar` is false, yet the zoom-out toggle is absent, because the
source additionally conjoins `isVisualMode` into
`isZoomedOutViewExperimentEnabled` and here the editor mode is not visual. -/
theorem C1_counterexample :
    c1Input.isLargeViewport = true ∧
    windowZoomOutFlag c1Input = some true ∧
    c1Input.isDistractionFree = false ∧
    c1Input.hasFixedToolbar = false ∧
    (DocumentTools c1Input).zoomOut = none := by
  refine ⟨rfl, rfl, rfl, rfl, ?_⟩
  decide

/-- A control rendered under a Bool condition is present exactly when the
condition holds. -/
theorem ite_some_none_isSome {α : Type} (c : Bool) (x : α) :
    (if c then some x else none).isSome = c := by
  cases c <;> simp

/-- Claim C1 amended: the zoom-out toggle is present in the render output if
and only if the viewport is large AND the global zoom-out experiment flag is
truthy AND the editor mode is visual AND distraction-free mode is off AND
`hasFixedToolbar` is false; every combination of the remaining flags
satisfying these five conditions renders the control. -/
theorem C1_zoomOut_render_iff (i : DocumentToolsInput) :
    (DocumentTools i).zoomOut.isSome =
      (i.isLargeViewport && (windowZoomOutFlag i).getD false &&
        isVisualMode i && !i.isDistractionFree && !i.hasFixedToolbar) := by
  simp only [DocumentTools, isZoomedOutViewExperimentEnabled]
  rw [ite_some_none_isSome]
  simp [Bool.and_assoc]

/-- Claim C2: clicking the zoom-out toggle dispatches exactly the device-type
effect with Desktop first and the editor-mode effect second, the latter with
`edit` when the current block-editor mode is `zoom-out` and `zoom-out`
otherwise; applying the trace to any store sets the device type to Desktop
and the block-editor mode accordingly. -/
theorem C2_zoomOut_click (s : StoreState) :
    zoomOutToggleOnClick s.blockEditorMode =
      [Effect.setPreviewDeviceType "Desktop",
       Effect.setEditorMode
         (if s.blockEditorMode = "zoom-out" then "edit" else "zoom-out")] ∧
    (applyEffects s (zoomOutToggleOnClick s.blockEditorMode)).deviceType =
      "Desktop" ∧
    (applyEffects s (zoomOutToggleOnClick s.blockEditorMode)).blockEditorMode =
      (if s.blockEditorMode = "zoom-out" then "edit" else "zoom-out") := by
  by_cases h : s.blockEditorMode = "zoom-out" <;>
    simp [zoomOutToggleOnClick, applyEffects, applyEffect, h]

/-- Claim C3: toggling the inserter from closed emits only the open dispatch
and from open emits exactly the focus move followed by the close dispatch;
the resulting open flag is the negation of the current one, and toggling
twice restores it. -/
theorem C3_toggleInserter (s : StoreState) :
    (toggleInserterStep s).2 =
      (if s.isInserterOpen then
        [Effect.focusInserterButton, Effect.setIsInserterOpened false]
      else
        [Effect.setIsInserterOpened true]) ∧
    (toggleInserterStep s).1.isInserterOpen = !s.isInserterOpen ∧
    (toggleInserterStep (toggleInserterStep s).1).1.isInserterOpen =
      s.isInserterOpen := by
  cases h : s.isInserterOpen <;>
    simp [toggleInserterStep, toggleInserter, applyEffects, applyEffect, h]

/-- Claim C4: whenever `isDistractionFree` is true, the inserter, list-view
and zoom-out controls are absent from the render decision, regardless of
every other flag. -/
theorem C4_distractionFree_hides (i : DocumentToolsInput)
    (h : i.isDistractionFree = true) :
    (DocumentTools i).inserter = none ∧
    (DocumentTools i).listView = none ∧
    (DocumentTools i).zoomOut = none := by
  simp [DocumentTools, h]

/-- A concrete distraction-free input. -/
def c4Input : DocumentToolsInput where
  blockEditorMode := "edit"
  isDistractionFree := true
  showIconLabels := false
  deviceType := "Desktop"
  isInserterOpen := false
  isListViewOpen := false
  listViewShortcut := none
  editorMode := "visual"
  hasFixedToolbar := false
  isLargeViewport := true
  window := some { __experimentalEnableZoomedOutView := some true }
  shouldShowContextualToolbar := false
  canFocusHiddenToolbar := false
  fixedToolbarCanBeFocused := false

/-- Claim C4 instantiated at `c4Input`. -/
theorem C4_witness :
    (DocumentTools c4Input).inserter = none ∧
    (DocumentTools c4Input).listView = none ∧
    (DocumentTools c4Input).zoomOut = none :=
  C4_distractionFree_hides c4Input rfl

/-- Claim C5: with a small viewport the tool selector, undo, redo, list-view
and zoom-out controls are all absent regardless of every other flag, and the
undo and redo controls are present exactly when the viewport is large. -/
theorem C5_viewport_gating (i : DocumentToolsInput) :
    (i.isLargeViewport = false →
      (DocumentTools i).toolSelector = none ∧
      (DocumentTools i).undo = none ∧
      (DocumentTools i).redo = none ∧
      (DocumentTools i).listView = none ∧
      (DocumentTools i).zoomOut = none) ∧
    (DocumentTools i).undo.isSome = i.isLargeViewport ∧
    (DocumentTools i).redo.isSome = i.isLargeViewport := by
  cases h : i.isLargeViewport <;> simp [DocumentTools, h]

/-- A concrete small-viewport input with every other flag set permissively. -/
def c5Input : DocumentToolsInput where
  blockEditorMode := "edit"
  isDistractionFree := false
  showIconLabels := false
  deviceType := "Desktop"
  isInserterOpen := false
  isListViewOpen := false
  listViewShortcut := none
  editorMode := "visual"
  hasFixedToolbar := false
  isLargeViewport := false
  window := some { __experimentalEnableZoomedOutView := some true }
  shouldShowContextualToolbar := false
  canFocusHiddenToolbar := false
  fixedToolbarCanBeFocused := false

/-- Claim C5 instantiated at `c5Input`. -/
theorem C5_witness :
    (DocumentTools c5Input).toolSelector = none ∧
    (DocumentTools c5Input).undo = none ∧
    (DocumentTools c5Input).redo = none ∧
    (DocumentTools c5Input).listView = none ∧
    (DocumentTools c5Input).zoomOut = none :=
  (C5_viewport_gating c5Input).1 rfl

/-- Claim C6: whenever the list-view toggle is rendered, its disabled flag is
exactly `!isVisualMode || isZoomedOutView` and its aria-expanded flag is
exactly `isListViewOpen`. -/
theorem C6_listView_disabled (i : DocumentToolsInput) (lv : ListViewControl)
    (h : (DocumentTools i).listView = some lv) :
    lv.disabled = (!isVisualMode i || isZoomedOutView i) ∧
    lv.ariaExpanded = i.isListViewOpen := by
  simp only [DocumentTools] at h
  split at h
  · injection h with h
    subst h
    exact ⟨rfl, rfl⟩
  · exact Option.noConfusion h

/-- A concrete input rendering the list-view toggle while zoomed out. -/
def c6Input : DocumentToolsInput where
  blockEditorMode := "zoom-out"
  isDistractionFree := false
  showIconLabels := false
  deviceType := "Desktop"
  isInserterOpen := false
  isListViewOpen := true
  listViewShortcut := none
  editorMode := "visual"
  hasFixedToolbar := false
  isLargeViewport := true
  window := none
  shouldShowContextualToolbar := false
  canFocusHiddenToolbar := false
  fixedToolbarCanBeFocused := false

/-- The list-view props `DocumentTools` produces at `c6Input`. -/
def c6Control : ListViewControl where
  disabled := true
  isPressed := true
  label := "List View"
  shortcut := none
  showTooltip := true
  variant := none
  ariaExpanded := true

/-- Claim C6 instantiated at `c6Input`. -/
theorem C6_witness :
    c6Control.disabled = (!isVisualMode c6Input || isZoomedOutView c6Input) ∧
    c6Control.ariaExpanded = c6Input.isListViewOpen :=
  C6_listView_disabled c6Input c6Control (by decide)

/-- Claim C7: toggling the list view dispatches exactly one effect, the open
flag set to its negation; the post store differs from the pre store only in
that flag; and toggling twice restores the flag. -/
theorem C7_toggleListView (s : StoreState) :
    (toggleListViewStep s).2 =
      [Effect.setIsListViewOpened (!s.isListViewOpen)] ∧
    (toggleListViewStep s).1 = { s with isListViewOpen := !s.isListViewOpen } ∧
    (toggleListViewStep (toggleListViewStep s).1).1.isListViewOpen =
      s.isListViewOpen := by
  cases h : s.isListViewOpen <;>
    simp [toggleListViewStep, toggleListView, applyEffects, applyEffect, h]

/-- Claim C8: the keyboard-focus shortcut is enabled exactly when the three
contextual-toolbar capability booleans are all false. -/
theorem C8_keyboardFocusShortcut (i : DocumentToolsInput) :
    (DocumentTools i).shouldUseKeyboardFocusShortcut = true ↔
      i.shouldShowContextualToolbar = false ∧
      i.canFocusHiddenToolbar = false ∧
      i.fixedToolbarCanBeFocused = false := by
  cases h1 : i.shouldShowContextualToolbar <;>
    cases h2 : i.canFocusHiddenToolbar <;>
      cases h3 : i.fixedToolbarCanBeFocused <;>
        simp [DocumentTools, blockToolbarCanBeFocused, h1, h2, h3]

/-- Claim C9: when `window?.__experimentalEnableZoomedOutView` is undefined
(the global absent or the property missing), the derived experiment flag is
false and the zoom-out toggle is absent; the computation is a total function,
so no error can arise. -/
theorem C9_absentFlag_defaults_false (i : DocumentToolsInput)
    (h : windowZoomOutFlag i = none) :
    isZoomedOutViewExperimentEnabled i = false ∧
    (DocumentTools i).zoomOut = none := by
  have he : isZoomedOutViewExperimentEnabled i = false := by
    simp [isZoomedOutViewExperimentEnabled, h]
  exact ⟨he, by simp [DocumentTools, he]⟩

/-- A concrete input with the browser global entirely absent. -/
def c9Input : DocumentToolsInput where
  blockEditorMode := "edit"
  isDistractionFree := false
  showIconLabels := false
  deviceType := "Desktop"
  isInserterOpen := false
  isListViewOpen := false
  listViewShortcut := none
  editorMode := "visual"
  hasFixedToolbar := false
  isLargeViewport := true
  window := none
  shouldShowContextualToolbar := false
  canFocusHiddenToolbar := false
  fixedToolbarCanBeFocused := false

/-- Claim C9 instantiated at `c9Input`. -/
theorem C9_witness :
    isZoomedOutViewExperimentEnabled c9Input = false ∧
    (DocumentTools c9Input).zoomOut = none :=
  C9_absentFlag_defaults_false c9Input rfl

/-- Claim C10: two inputs that differ only in the preview device type yield
the same render decision; the device type is read by the selector body but
never used by the render logic. -/
theorem C10_deviceType_noninterference (i : DocumentToolsInput) (d : String) :
    DocumentTools { i with deviceType := d } = DocumentTools i := by
  cases i
  rfl
